import Mathlib

/-!
Shallow embedding of `src/main.py` (a password generator built on Python's
`secrets` module and `random.SystemRandom`), together with proofs of the
specification's claims about it.

Modelling conventions:
* Python `str` is Lean `String`; the ordered `dict` of character classes is an
  association list `List (String × String)` (insertion order preserved, as in
  Python 3.7+ dicts; all keys inserted by the program are distinct).
* Python `int` is Lean `Int` where a negative value is representable at the
  call boundary (the password length), `Nat` elsewhere.
* The cryptographically secure random source is modelled nondeterministically:
  every random draw consumes one value from a caller-supplied stream
  `Nat → Nat`, and `secrets.choice(seq)` maps that value into a valid index by
  reduction mod `len(seq)`.  Every sequence of outcomes the real program can
  produce corresponds to some stream, and no other outcome is representable.
* Python exceptions are the explicit error type `PyError`; a fallible Python
  function becomes a Lean function into `Except PyError _`.
-/

/-- Python exception values raised by the modelled code: `ValueError(msg)`
raised explicitly by `generate_password`, and `IndexError` raised by
`secrets.choice` on an empty sequence. -/
inductive PyError where
  | valueError (msg : String)
  | indexError (msg : String)
deriving DecidableEq, Repr

/-- `string.ascii_lowercase` from the Python standard library. -/
def ascii_lowercase : String := "abcdefghijklmnopqrstuvwxyz"

/-- `string.ascii_uppercase` from the Python standard library. -/
def ascii_uppercase : String := "ABCDEFGHIJKLMNOPQRSTUVWXYZ"

/-- `string.digits` from the Python standard library. -/
def string_digits : String := "0123456789"

/-- The literal symbol set written in `build_charset`
(`!@#$%^&*()-_=+[]\x7b\x7d;:,.<>/?`). -/
def symbols_literal : String := "!@#$%^&*()-_=+[]\x7b\x7d;:,.<>/?"

/-- `build_charset(use_lower=True, use_upper=True, use_digits=True,
use_symbols=True)` from `src/main.py`: returns the dict of the chosen
character classes (as an insertion-ordered association list) and the combined
pool.  The four Python keyword defaults are all `True`, mirrored here by
Lean default arguments. -/
def build_charset (use_lower : Bool := true) (use_upper : Bool := true)
    (use_digits : Bool := true) (use_symbols : Bool := true) :
    List (String × String) × String :=
  let classes : List (String × String) := []
  let pool : String := ""
  let (classes, pool) :=
    if use_lower then (classes ++ [("lower", ascii_lowercase)], pool ++ ascii_lowercase)
    else (classes, pool)
  let (classes, pool) :=
    if use_upper then (classes ++ [("upper", ascii_uppercase)], pool ++ ascii_uppercase)
    else (classes, pool)
  let (classes, pool) :=
    if use_digits then (classes ++ [("digits", string_digits)], pool ++ string_digits)
    else (classes, pool)
  let (classes, pool) :=
    if use_symbols then (classes ++ [("symbols", symbols_literal)], pool ++ symbols_literal)
    else (classes, pool)
  (classes, pool)

/-- `secrets.choice(seq)`: draws `seq[i]` for an index `i < len(seq)` chosen
uniformly by the secure source.  The nondeterministic outcome is supplied as
`k`, reduced mod `len(seq)` so that exactly the valid indices are reachable;
on an empty sequence the subscript raises `IndexError`, as in Python. -/
def choice (seq : String) (k : Nat) : Except PyError Char :=
  match seq.data.get? (k % seq.data.length) with
  | some c => Except.ok c
  | none => Except.error (PyError.indexError "Cannot choose from an empty sequence")

/-- The list comprehension `[secrets.choice(chars) for chars in classes.values()]`
in `generate_password`: one draw per class, in the dict's insertion order.
`pick n` supplies the random value consumed by the `n`-th draw. -/
def drawMandatory : List (String × String) → (Nat → Nat) → Except PyError (List Char)
  | [], _ => Except.ok []
  | (_, chars) :: rest, pick => do
      let c ← choice chars (pick 0)
      let cs ← drawMandatory rest (fun n => pick (n + 1))
      Except.ok (c :: cs)

/-- The list comprehension `[secrets.choice(pool) for _ in range(remaining)]`
in `generate_password`: `n` independent draws from the full pool. -/
def drawFill (pool : String) (pick : Nat → Nat) : Nat → Except PyError (List Char)
  | 0 => Except.ok []
  | n + 1 => do
      let c ← choice pool (pick 0)
      let cs ← drawFill pool (fun k => pick (k + 1)) n
      Except.ok (c :: cs)

/-- One in-place swap `x[i], x[j] = x[j], x[i]` on a list; out-of-range
indices leave the list unchanged (never reached by the shuffle below). -/
def listSwap (l : List Char) (i j : Nat) : List Char :=
  match l.get? i, l.get? j with
  | some a, some b => (l.set i b).set j a
  | _, _ => l

/-- The loop body of CPython's `random.shuffle`: for `i` descending from
`len(x) - 1` to `1`, draw `j` uniformly below `i + 1` and swap `x[i]` with
`x[j]`.  `pick step` supplies the random value of the step numbered `step`,
reduced mod `i + 1` exactly as `_randbelow` restricts it. -/
def shuffleSteps (pick : Nat → Nat) : Nat → List Char → Nat → List Char
  | _, l, 0 => l
  | step, l, i + 1 =>
      shuffleSteps pick (step + 1) (listSwap l (i + 1) (pick step % (i + 2))) i

/-- `_sysrand.shuffle(password_chars)` from `src/main.py`: the Fisher-Yates
shuffle performed by `random.SystemRandom().shuffle`, with its random draws
supplied by `pick`. -/
def pyShuffle (l : List Char) (pick : Nat → Nat) : List Char :=
  shuffleSteps pick 0 l (l.length - 1)

/-- `generate_password(length, classes, pool)` from `src/main.py`.
`classPick`, `poolPick` and `shufflePick` supply the values consumed by the
per-class draws, the pool draws and the shuffle respectively. -/
def generate_password (length : Int) (classes : List (String × String))
    (pool : String) (classPick poolPick shufflePick : Nat → Nat) :
    Except PyError String :=
  if pool.data.isEmpty then
    Except.error (PyError.valueError
      "Character pool is empty. Enable at least one character type.")
  else if length < (classes.length : Int) then
    Except.error (PyError.valueError
      ("Length must be at least " ++ toString classes.length ++
        " to include one of each selected type."))
  else do
    let password_chars ← drawMandatory classes classPick
    let remaining := length - (password_chars.length : Int)
    let filler ← drawFill pool poolPick remaining.toNat
    let password_chars := password_chars ++ filler
    let password_chars := pyShuffle password_chars shufflePick
    Except.ok (String.mk password_chars)

example : (build_charset true false false false).2 = "abcdefghijklmnopqrstuvwxyz" := by decide
example :
    generate_password 4 (build_charset true false true false).1
      (build_charset true false true false).2 (fun _ => 0) (fun _ => 0) (fun _ => 0) =
    Except.ok "0aaa" := rfl
example :
    generate_password 1 (build_charset true true false false).1
      (build_charset true true false false).2 (fun _ => 0) (fun _ => 0) (fun _ => 0) =
    Except.error (PyError.valueError
      "Length must be at least 2 to include one of each selected type.") := rfl
example :
    generate_password 10 (build_charset false false false false).1
      (build_charset false false false false).2 (fun _ => 0) (fun _ => 0) (fun _ => 0) =
    Except.error (PyError.valueError
      "Character pool is empty. Enable at least one character type.") := rfl

/-- The message of the `ValueError` raised for an empty pool. -/
def emptyPoolMsg : String :=
  "Character pool is empty. Enable at least one character type."

/-- The message of the `ValueError` raised for an insufficient length, as the
f-string interpolates `len(classes)`. -/
def lengthMsg (n : Nat) : String :=
  "Length must be at least " ++ toString n ++ " to include one of each selected type."

/-- The Python exception class an error belongs to: the error kind a caller
can distinguish with `except ValueError` / `except IndexError`. -/
def PyError.kind : PyError → String
  | PyError.valueError _ => "ValueError"
  | PyError.indexError _ => "IndexError"

/-- The Charset Builder output exactly as the spec words it (§4.1): the
ClassSet holds only the enabled entries in the order lower, upper, digits,
symbols, each with its literal contents, and the Pool is the concatenation of
those class strings in that same order.  Written from the spec, to be compared
with `build_charset`. -/
def spec_build_charset (bl bu bd bs : Bool) : List (String × String) × String :=
  let entries :=
    (if bl then [("lower", "abcdefghijklmnopqrstuvwxyz")] else []) ++
    (if bu then [("upper", "ABCDEFGHIJKLMNOPQRSTUVWXYZ")] else []) ++
    (if bd then [("digits", "0123456789")] else []) ++
    (if bs then [("symbols", "!@#$%^&*()-_=+[]\x7b\x7d;:,.<>/?")] else [])
  (entries, String.join (entries.map Prod.snd))

/-! ### Lemmas about the character draws -/

theorem choice_ok_mem {seq : String} {k : Nat} {c : Char}
    (h : choice seq k = Except.ok c) : c ∈ seq.data := by
  unfold choice at h
  cases hg : seq.data.get? (k % seq.data.length) with
  | none => rw [hg] at h; exact absurd h (by simp)
  | some d =>
      rw [hg] at h
      injection h with h
      subst h
      exact List.get?_mem hg

theorem choice_ok_of_nonempty {seq : String} (h : seq.data ≠ []) (k : Nat) :
    ∃ c, choice seq k = Except.ok c ∧ c ∈ seq.data := by
  have hlen : 0 < seq.data.length := List.length_pos.mpr h
  have hlt : k % seq.data.length < seq.data.length := Nat.mod_lt _ hlen
  unfold choice
  cases hg : seq.data.get? (k % seq.data.length) with
  | none =>
      have := List.get?_eq_none.mp hg
      omega
  | some c => exact ⟨c, rfl, List.get?_mem hg⟩

theorem drawMandatory_ok_length :
    ∀ (cls : List (String × String)) (pick : Nat → Nat) (cs : List Char),
      drawMandatory cls pick = Except.ok cs → cs.length = cls.length := by
  intro cls
  induction cls with
  | nil =>
      intro pick cs h
      unfold drawMandatory at h
      injection h with h
      subst h
      rfl
  | cons p rest ih =>
      intro pick cs h
      obtain ⟨name, chars⟩ := p
      unfold drawMandatory at h
      cases hc : choice chars (pick 0) with
      | error e => rw [hc] at h; simp [Bind.bind, Except.bind] at h
      | ok c =>
          rw [hc] at h
          cases hr : drawMandatory rest (fun n => pick (n + 1)) with
          | error e => rw [hr] at h; simp [Bind.bind, Except.bind] at h
          | ok cs0 =>
              rw [hr] at h
              simp only [Bind.bind, Except.bind] at h
              injection h with h
              subst h
              simp [ih _ _ hr]

theorem except_bind_ok {α β : Type} {e : Except PyError α} {f : α → Except PyError β}
    {b : β} (h : e >>= f = Except.ok b) : ∃ a, e = Except.ok a ∧ f a = Except.ok b := by
  cases e with
  | error msg => exact absurd h (by simp [Bind.bind, Except.bind])
  | ok a => exact ⟨a, rfl, h⟩

theorem drawMandatory_ok_coverage :
    ∀ (cls : List (String × String)) (pick : Nat → Nat) (cs : List Char),
      drawMandatory cls pick = Except.ok cs →
      ∀ p ∈ cls, ∃ c, c ∈ cs ∧ c ∈ p.2.data := by
  intro cls
  induction cls with
  | nil => intro pick cs h p hp; exact absurd hp (List.not_mem_nil p)
  | cons q rest ih =>
      intro pick cs h p hp
      obtain ⟨name, chars⟩ := q
      unfold drawMandatory at h
      obtain ⟨c, hc, h⟩ := except_bind_ok h
      obtain ⟨cs0, hr, h⟩ := except_bind_ok h
      injection h with h
      subst h
      rcases List.mem_cons.mp hp with hq | hq
      · subst hq
        exact ⟨c, List.mem_cons_self _ _, choice_ok_mem hc⟩
      · obtain ⟨d, hd, hdp⟩ := ih _ _ hr p hq
        exact ⟨d, List.mem_cons_of_mem _ hd, hdp⟩

theorem drawMandatory_ok_sub :
    ∀ (cls : List (String × String)) (pick : Nat → Nat) (cs : List Char),
      drawMandatory cls pick = Except.ok cs →
      ∀ c ∈ cs, ∃ p, p ∈ cls ∧ c ∈ p.2.data := by
  intro cls
  induction cls with
  | nil =>
      intro pick cs h c hc
      unfold drawMandatory at h
      injection h with h
      subst h
      exact absurd hc (List.not_mem_nil c)
  | cons q rest ih =>
      intro pick cs h c hc
      obtain ⟨name, chars⟩ := q
      unfold drawMandatory at h
      obtain ⟨c0, hc0, h⟩ := except_bind_ok h
      obtain ⟨cs0, hr, h⟩ := except_bind_ok h
      injection h with h
      subst h
      rcases List.mem_cons.mp hc with hq | hq
      · subst hq
        exact ⟨(name, chars), List.mem_cons_self _ _, choice_ok_mem hc0⟩
      · obtain ⟨p, hp, hcp⟩ := ih _ _ hr c hq
        exact ⟨p, List.mem_cons_of_mem _ hp, hcp⟩

theorem drawMandatory_ok_of_nonempty :
    ∀ (cls : List (String × String)) (pick : Nat → Nat),
      (∀ p ∈ cls, p.2.data ≠ []) →
      ∃ cs, drawMandatory cls pick = Except.ok cs := by
  intro cls
  induction cls with
  | nil => intro pick _; exact ⟨[], rfl⟩
  | cons q rest ih =>
      intro pick hne
      obtain ⟨name, chars⟩ := q
      obtain ⟨c, hc, _⟩ :=
        choice_ok_of_nonempty (hne (name, chars) (List.mem_cons_self _ _)) (pick 0)
      obtain ⟨cs0, hr⟩ :=
        ih (fun n => pick (n + 1)) (fun p hp => hne p (List.mem_cons_of_mem _ hp))
      refine ⟨c :: cs0, ?_⟩
      unfold drawMandatory
      rw [hc, hr]
      rfl

theorem drawFill_ok_length :
    ∀ (n : Nat) (pool : String) (pick : Nat → Nat) (cs : List Char),
      drawFill pool pick n = Except.ok cs → cs.length = n := by
  intro n
  induction n with
  | zero =>
      intro pool pick cs h
      injection h with h
      subst h
      rfl
  | succ m ih =>
      intro pool pick cs h
      unfold drawFill at h
      obtain ⟨c, hc, h⟩ := except_bind_ok h
      obtain ⟨cs0, hr, h⟩ := except_bind_ok h
      injection h with h
      subst h
      simp [ih _ _ _ hr]

theorem drawFill_ok_mem :
    ∀ (n : Nat) (pool : String) (pick : Nat → Nat) (cs : List Char),
      drawFill pool pick n = Except.ok cs → ∀ c ∈ cs, c ∈ pool.data := by
  intro n
  induction n with
  | zero =>
      intro pool pick cs h c hc
      injection h with h
      subst h
      exact absurd hc (List.not_mem_nil c)
  | succ m ih =>
      intro pool pick cs h c hc
      unfold drawFill at h
      obtain ⟨c0, hc0, h⟩ := except_bind_ok h
      obtain ⟨cs0, hr, h⟩ := except_bind_ok h
      injection h with h
      subst h
      rcases List.mem_cons.mp hc with hq | hq
      · subst hq; exact choice_ok_mem hc0
      · exact ih _ _ _ hr c hq

theorem drawFill_ok_of_nonempty :
    ∀ (n : Nat) (pool : String) (pick : Nat → Nat), pool.data ≠ [] →
      ∃ cs, drawFill pool pick n = Except.ok cs := by
  intro n
  induction n with
  | zero => intro pool pick _; exact ⟨[], rfl⟩
  | succ m ih =>
      intro pool pick hne
      obtain ⟨c, hc, _⟩ := choice_ok_of_nonempty hne (pick 0)
      obtain ⟨cs0, hr⟩ := ih pool (fun k => pick (k + 1)) hne
      refine ⟨c :: cs0, ?_⟩
      unfold drawFill
      rw [hc, hr]
      rfl

/-! ### The shuffle is a permutation -/

theorem cons_set_perm :
    ∀ (t : List Char) (m : Nat) (a b : Char), t.get? m = some b →
      (b :: t.set m a).Perm (a :: t) := by
  intro t
  induction t with
  | nil => intro m a b h; simp at h
  | cons c u ih =>
      intro m a b h
      cases m with
      | zero =>
          rw [List.get?_cons_zero, Option.some.injEq] at h
          subst h
          simp only [List.set]
          exact List.Perm.swap _ _ _
      | succ m' =>
          rw [List.get?_cons_succ] at h
          simp only [List.set]
          exact (List.Perm.swap c b _).trans
            ((List.Perm.cons c (ih m' a b h)).trans (List.Perm.swap a c u))

theorem set_set_perm :
    ∀ (l : List Char) (i j : Nat) (a b : Char),
      l.get? i = some a → l.get? j = some b →
      ((l.set i b).set j a).Perm l := by
  intro l
  induction l with
  | nil => intro i j a b hi _; simp at hi
  | cons c t ih =>
      intro i j a b hi hj
      cases i with
      | zero =>
          rw [List.get?_cons_zero, Option.some.injEq] at hi
          subst hi
          cases j with
          | zero =>
              rw [List.get?_cons_zero, Option.some.injEq] at hj
              subst hj
              simp only [List.set]
              exact List.Perm.refl _
          | succ m =>
              rw [List.get?_cons_succ] at hj
              simp only [List.set]
              exact cons_set_perm t m c b hj
      | succ k =>
          rw [List.get?_cons_succ] at hi
          cases j with
          | zero =>
              rw [List.get?_cons_zero, Option.some.injEq] at hj
              subst hj
              simp only [List.set]
              exact cons_set_perm t k c a hi
          | succ m =>
              rw [List.get?_cons_succ] at hj
              simp only [List.set]
              exact List.Perm.cons c (ih k m a b hi hj)

theorem listSwap_perm (l : List Char) (i j : Nat) : (listSwap l i j).Perm l := by
  unfold listSwap
  cases hi : l.get? i with
  | none => exact List.Perm.refl l
  | some a =>
      cases hj : l.get? j with
      | none => exact List.Perm.refl l
      | some b => exact set_set_perm l i j a b hi hj

theorem shuffleSteps_perm (pick : Nat → Nat) :
    ∀ (i step : Nat) (l : List Char), (shuffleSteps pick step l i).Perm l := by
  intro i
  induction i with
  | zero => intro step l; exact List.Perm.refl l
  | succ i' ih =>
      intro step l
      unfold shuffleSteps
      exact (ih _ _).trans (listSwap_perm _ _ _)

theorem pyShuffle_perm (l : List Char) (pick : Nat → Nat) :
    (pyShuffle l pick).Perm l :=
  shuffleSteps_perm pick (l.length - 1) 0 l

/-! ### Characterisation of the paths through generate_password -/

theorem generate_password_ok_elim {length : Int} {classes : List (String × String)}
    {pool : String} {cp pp sp : Nat → Nat} {pwd : String}
    (h : generate_password length classes pool cp pp sp = Except.ok pwd) :
    pool.data ≠ [] ∧ (classes.length : Int) ≤ length ∧
    ∃ mand filler, drawMandatory classes cp = Except.ok mand ∧
      drawFill pool pp (length - (mand.length : Int)).toNat = Except.ok filler ∧
      pwd = String.mk (pyShuffle (mand ++ filler) sp) := by
  unfold generate_password at h
  by_cases hp : pool.data.isEmpty
  · rw [if_pos hp] at h
    exact absurd h (by simp)
  · rw [if_neg hp] at h
    by_cases hl : length < (classes.length : Int)
    · rw [if_pos hl] at h
      exact absurd h (by simp)
    · rw [if_neg hl] at h
      obtain ⟨mand, hm, h⟩ := except_bind_ok h
      obtain ⟨filler, hf, h⟩ := except_bind_ok h
      injection h with h
      exact ⟨by simpa using hp, le_of_not_lt hl, mand, filler, hm, hf, h.symm⟩

theorem generate_password_ok_intro {length : Int} {classes : List (String × String)}
    {pool : String} (hpool : pool.data ≠ []) (hlen : (classes.length : Int) ≤ length)
    (hcls : ∀ p ∈ classes, p.2.data ≠ []) (cp pp sp : Nat → Nat) :
    ∃ pwd, generate_password length classes pool cp pp sp = Except.ok pwd := by
  obtain ⟨mand, hm⟩ := drawMandatory_ok_of_nonempty classes cp hcls
  obtain ⟨filler, hf⟩ :=
    drawFill_ok_of_nonempty (length - (mand.length : Int)).toNat pool pp hpool
  refine ⟨String.mk (pyShuffle (mand ++ filler) sp), ?_⟩
  unfold generate_password
  rw [if_neg (by simpa using hpool), if_neg (not_lt.mpr hlen)]
  rw [hm]
  show drawFill pool pp (length - (mand.length : Int)).toNat >>=
    (fun filler => Except.ok (String.mk (pyShuffle (mand ++ filler) sp))) = _
  rw [hf]
  rfl

theorem generate_password_error_empty_pool (length : Int)
    (classes : List (String × String)) {pool : String} (hp : pool.data = [])
    (cp pp sp : Nat → Nat) :
    generate_password length classes pool cp pp sp =
      Except.error (PyError.valueError emptyPoolMsg) := by
  unfold generate_password
  rw [if_pos (by simp [List.isEmpty_iff, hp])]
  rfl

theorem generate_password_error_short {length : Int}
    {classes : List (String × String)} {pool : String} (hp : pool.data ≠ [])
    (hl : length < (classes.length : Int)) (cp pp sp : Nat → Nat) :
    generate_password length classes pool cp pp sp =
      Except.error (PyError.valueError (lengthMsg classes.length)) := by
  unfold generate_password
  rw [if_neg (by simpa [List.isEmpty_iff] using hp), if_pos hl]
  rfl

theorem emptyPoolMsg_ne_lengthMsg (n : Nat) : emptyPoolMsg ≠ lengthMsg n := by
  intro h
  have h2 : emptyPoolMsg.data.head? = (lengthMsg n).data.head? := by rw [h]
  rw [show emptyPoolMsg.data.head? = some 'C' from rfl] at h2
  unfold lengthMsg at h2
  rw [String.data_append, String.data_append] at h2
  rw [show ("Length must be at least ".data : List Char) =
        'L' :: "ength must be at least ".data from rfl] at h2
  rw [List.cons_append, List.cons_append, List.head?_cons] at h2
  simp at h2

theorem build_charset_class_chars_in_pool :
    ∀ bl bu bd bs : Bool, ∀ p ∈ (build_charset bl bu bd bs).1,
      ∀ c ∈ p.2.data, c ∈ (build_charset bl bu bd bs).2.data := by
  intro bl bu bd bs
  cases bl <;> cases bu <;> cases bd <;> cases bs <;> decide

/-! ### The claims -/

/-- **C1.** For every length, ClassSet and pool satisfying the preconditions
(pool non-empty and length ≥ number of classes), the password returned by
`generate_password` — for every possible outcome of the random draws and the
shuffle — contains at least one character from every class in the ClassSet. -/
theorem generate_password_coverage_invariant
    {length : Int} {classes : List (String × String)} {pool : String}
    {cp pp sp : Nat → Nat} {pwd : String}
    (hpool : pool.data ≠ []) (hlen : (classes.length : Int) ≤ length)
    (h : generate_password length classes pool cp pp sp = Except.ok pwd) :
    ∀ p ∈ classes, ∃ c, c ∈ pwd.data ∧ c ∈ p.2.data := by
  obtain ⟨-, -, mand, filler, hm, hf, hpwd⟩ := generate_password_ok_elim h
  intro p hp
  obtain ⟨c, hcm, hcp⟩ := drawMandatory_ok_coverage classes cp mand hm p hp
  refine ⟨c, ?_, hcp⟩
  rw [hpwd]
  exact ((pyShuffle_perm (mand ++ filler) sp).mem_iff).mpr
    (List.mem_append.mpr (Or.inl hcm))

theorem generate_password_coverage_invariant_witness :
    ∃ c, c ∈ ("Aa" : String).data ∧ c ∈ ("lower", ascii_lowercase).2.data :=
  @generate_password_coverage_invariant 2 (build_charset true true false false).1
    (build_charset true true false false).2
    (fun _ => 0) (fun _ => 0) (fun _ => 0) "Aa"
    (by decide) (by decide) rfl ("lower", ascii_lowercase) (by decide)

/-- **C2.** For every length, ClassSet and pool satisfying the preconditions
(pool non-empty and length ≥ number of classes), `generate_password` returns a
string of exactly `length` characters, for every possible outcome of the
random draws and the shuffle. -/
theorem generate_password_length_invariant
    {length : Int} {classes : List (String × String)} {pool : String}
    {cp pp sp : Nat → Nat} {pwd : String}
    (hpool : pool.data ≠ []) (hlen : (classes.length : Int) ≤ length)
    (h : generate_password length classes pool cp pp sp = Except.ok pwd) :
    (pwd.length : Int) = length := by
  obtain ⟨-, -, mand, filler, hm, hf, hpwd⟩ := generate_password_ok_elim h
  have hm' := drawMandatory_ok_length classes cp mand hm
  have hf' := drawFill_ok_length _ pool pp filler hf
  have hperm : (pyShuffle (mand ++ filler) sp).length = mand.length + filler.length := by
    rw [(pyShuffle_perm (mand ++ filler) sp).length_eq, List.length_append]
  subst hpwd
  show ((pyShuffle (mand ++ filler) sp).length : Int) = length
  rw [hperm, hf', hm']
  omega

theorem generate_password_length_invariant_witness : ((("Aa" : String).length) : Int) = 2 :=
  @generate_password_length_invariant 2 (build_charset true true false false).1
    (build_charset true true false false).2
    (fun _ => 0) (fun _ => 0) (fun _ => 0) "Aa"
    (by decide) (by decide) rfl

/-- **C3.** For every combination of the four boolean flags, `build_charset`
returns the ClassSet containing exactly the enabled classes in the order
lower, upper, digits, symbols, with the literal contents the spec lists
(26 lowercase, 26 uppercase, 10 digits, the 26-character symbol string), and a
pool equal to the concatenation of those class strings in that same order —
i.e. it coincides with `spec_build_charset`, the builder transcribed from the
spec's words, and the four class strings have the stated sizes. -/
theorem build_charset_matches_spec :
    (∀ bl bu bd bs : Bool, build_charset bl bu bd bs = spec_build_charset bl bu bd bs) ∧
    ascii_lowercase.length = 26 ∧ ascii_uppercase.length = 26 ∧
    string_digits.length = 10 ∧ symbols_literal.length = 26 := by
  refine ⟨?_, by decide, by decide, by decide, by decide⟩
  intro bl bu bd bs
  cases bl <;> cases bu <;> cases bd <;> cases bs <;> decide

/-- **C4 (as stated: refuted).** The two failure conditions are *not* raised
as distinct, caller-distinguishable error kinds: at the concrete inputs below,
the empty-pool failure and the insufficient-length failure both surface as the
single generic kind `ValueError`, distinguished only by their message. -/
theorem generate_password_error_kinds_not_distinct :
    generate_password 5 [] "" (fun _ => 0) (fun _ => 0) (fun _ => 0) =
      Except.error (PyError.valueError emptyPoolMsg) ∧
    generate_password 1 (build_charset true true false false).1
      (build_charset true true false false).2 (fun _ => 0) (fun _ => 0) (fun _ => 0) =
      Except.error (PyError.valueError (lengthMsg 2)) ∧
    (PyError.valueError emptyPoolMsg).kind = (PyError.valueError (lengthMsg 2)).kind :=
  ⟨rfl, rfl, rfl⟩

/-- **C4 (amended).** The two failure conditions of `generate_password` are
raised as one and the same error kind — Python's generic `ValueError` — and
are distinguishable by the caller only through their message strings, which do
differ between the two conditions. -/
theorem generate_password_same_error_kind
    {l1 l2 : Int} {cls1 cls2 : List (String × String)} {pool1 pool2 : String}
    {cp pp sp : Nat → Nat} {e1 e2 : PyError}
    (hp1 : pool1.data = [])
    (h1 : generate_password l1 cls1 pool1 cp pp sp = Except.error e1)
    (hp2 : pool2.data ≠ []) (hl2 : l2 < (cls2.length : Int))
    (h2 : generate_password l2 cls2 pool2 cp pp sp = Except.error e2) :
    e1.kind = "ValueError" ∧ e2.kind = "ValueError" ∧ e1 ≠ e2 := by
  have he1 : e1 = PyError.valueError emptyPoolMsg := by
    have h := h1.symm.trans (generate_password_error_empty_pool l1 cls1 hp1 cp pp sp)
    injection h
  have he2 : e2 = PyError.valueError (lengthMsg cls2.length) := by
    have h := h2.symm.trans (generate_password_error_short hp2 hl2 cp pp sp)
    injection h
  subst he1
  subst he2
  refine ⟨rfl, rfl, fun heq => ?_⟩
  injection heq with heq
  exact emptyPoolMsg_ne_lengthMsg cls2.length heq

theorem generate_password_same_error_kind_witness :
    (PyError.valueError emptyPoolMsg).kind = "ValueError" ∧
    (PyError.valueError (lengthMsg 2)).kind = "ValueError" ∧
    PyError.valueError emptyPoolMsg ≠ PyError.valueError (lengthMsg 2) :=
  @generate_password_same_error_kind 5 1 [] (build_charset true true false false).1
    "" (build_charset true true false false).2
    (fun _ => 0) (fun _ => 0) (fun _ => 0)
    (PyError.valueError emptyPoolMsg) (PyError.valueError (lengthMsg 2))
    rfl rfl (by decide) (by decide) rfl

/-- **C5.** With an empty pool, `generate_password` fails with the empty-pool
`ValueError` regardless of the requested length (in particular also when
`length < |classes|`, which shows the empty-pool condition is checked first);
with a non-empty pool and any length strictly below the number of classes it
fails with the insufficient-length `ValueError`. -/
theorem generate_password_failure_determinism
    (length : Int) (classes : List (String × String)) (pool : String)
    (cp pp sp : Nat → Nat) :
    (pool.data = [] →
      generate_password length classes pool cp pp sp =
        Except.error (PyError.valueError emptyPoolMsg)) ∧
    (pool.data ≠ [] → length < (classes.length : Int) →
      generate_password length classes pool cp pp sp =
        Except.error (PyError.valueError (lengthMsg classes.length))) :=
  ⟨fun hp => generate_password_error_empty_pool length classes hp cp pp sp,
   fun hp hl => generate_password_error_short hp hl cp pp sp⟩

theorem generate_password_failure_determinism_witness :
    generate_password (-7) [("lower", ascii_lowercase)] ""
      (fun _ => 0) (fun _ => 0) (fun _ => 0) =
      Except.error (PyError.valueError emptyPoolMsg) ∧
    generate_password 1 (build_charset true true false false).1
      (build_charset true true false false).2 (fun _ => 0) (fun _ => 0) (fun _ => 0) =
      Except.error (PyError.valueError
        (lengthMsg (build_charset true true false false).1.length)) :=
  ⟨(generate_password_failure_determinism (-7) [("lower", ascii_lowercase)] ""
      (fun _ => 0) (fun _ => 0) (fun _ => 0)).1 rfl,
   (generate_password_failure_determinism 1 (build_charset true true false false).1
      (build_charset true true false false).2
      (fun _ => 0) (fun _ => 0) (fun _ => 0)).2 (by decide) (by decide)⟩

/-- **C6.** When the ClassSet and pool are as produced by `build_charset`
(so the pool is the concatenation of the ClassSet's class strings) and the
preconditions hold, every character of any password returned by
`generate_password` is a member of the pool. -/
theorem generate_password_pool_membership
    {bl bu bd bs : Bool} {length : Int} {classes : List (String × String)}
    {pool : String} {cp pp sp : Nat → Nat} {pwd : String}
    (hbuild : build_charset bl bu bd bs = (classes, pool))
    (hpool : pool.data ≠ []) (hlen : (classes.length : Int) ≤ length)
    (h : generate_password length classes pool cp pp sp = Except.ok pwd) :
    ∀ c ∈ pwd.data, c ∈ pool.data := by
  obtain ⟨-, -, mand, filler, hm, hf, hpwd⟩ := generate_password_ok_elim h
  intro c hc
  rw [hpwd] at hc
  have hc2 : c ∈ mand ++ filler := ((pyShuffle_perm (mand ++ filler) sp).mem_iff).mp hc
  rcases List.mem_append.mp hc2 with hcm | hcf
  · obtain ⟨p, hp, hcp⟩ := drawMandatory_ok_sub classes cp mand hm c hcm
    have h1 : p ∈ (build_charset bl bu bd bs).1 := by rw [hbuild]; exact hp
    have h2 := build_charset_class_chars_in_pool bl bu bd bs p h1 c hcp
    rw [hbuild] at h2
    exact h2
  · exact drawFill_ok_mem _ pool pp filler hf c hcf

theorem generate_password_pool_membership_witness :
    'a' ∈ (build_charset true false false false).2.data :=
  @generate_password_pool_membership true false false false 1
    (build_charset true false false false).1 (build_charset true false false false).2
    (fun _ => 0) (fun _ => 0) (fun _ => 0) "a"
    rfl (by decide) (by decide) rfl 'a' (by decide)

/-- **C7.** For every combination of the four boolean flags, the pool returned
by `build_charset` is non-empty iff the returned ClassSet is non-empty, and
every class string stored in the ClassSet is non-empty. -/
theorem build_charset_nonempty_invariants :
    ∀ bl bu bd bs : Bool,
      ((build_charset bl bu bd bs).2.data ≠ [] ↔ (build_charset bl bu bd bs).1 ≠ []) ∧
      ∀ p ∈ (build_charset bl bu bd bs).1, p.2.data ≠ [] := by
  intro bl bu bd bs
  cases bl <;> cases bu <;> cases bd <;> cases bs <;> decide

/-- **C9.** For every non-empty pool and every length at least the number of
classes (with the ClassSet's non-empty-values invariant), `generate_password`
raises no error: both error branches are unreachable and a password is
returned; in particular the number of remaining pool draws,
`length - |classes|`, is never negative. -/
theorem generate_password_no_error_under_preconditions
    {length : Int} {classes : List (String × String)} {pool : String}
    (hpool : pool.data ≠ []) (hlen : (classes.length : Int) ≤ length)
    (hcls : ∀ p ∈ classes, p.2.data ≠ []) (cp pp sp : Nat → Nat) :
    (∃ pwd, generate_password length classes pool cp pp sp = Except.ok pwd) ∧
    0 ≤ length - (classes.length : Int) :=
  ⟨generate_password_ok_intro hpool hlen hcls cp pp sp, by omega⟩

theorem generate_password_no_error_under_preconditions_witness :
    (∃ pwd, generate_password 20 (build_charset true true true true).1
      (build_charset true true true true).2
      (fun _ => 0) (fun _ => 0) (fun _ => 0) = Except.ok pwd) ∧
    0 ≤ (20 : Int) - ((build_charset true true true true).1.length : Int) :=
  @generate_password_no_error_under_preconditions 20
    (build_charset true true true true).1 (build_charset true true true true).2
    (by decide) (by decide) (by decide) (fun _ => 0) (fun _ => 0) (fun _ => 0)

/-- **C10.** All four flag parameters of `build_charset` default to `True`:
calling it with no arguments is calling it with all four classes enabled, the
resulting ClassSet holds exactly the four classes in order, and the resulting
pool has exactly 88 = 26 + 26 + 10 + 26 characters. -/
theorem build_charset_defaults_all_true :
    build_charset = build_charset true true true true ∧
    (build_charset true true true true).1.map Prod.fst =
      ["lower", "upper", "digits", "symbols"] ∧
    (build_charset true true true true).2.length = 88 :=
  ⟨rfl, by decide, by decide⟩
